import Mathlib

/-!
Shallow embedding of `model_helper.py`: a transfer-learning helper that builds a
densenet121-based classifier, trains and validates it, checkpoints it, and
predicts top-K classes for an image.

Conventions of the embedding:
* tensors are lists of exact rationals (the code's arithmetic is deterministic
  numeric computation; exact arithmetic stands in for floats);
* external torch / torchvision / PIL primitives (pretrained weights, autograd,
  exp, log-softmax, topk, image decoding) are embedded as executable Lean
  functions that keep exactly the structure the source relies on; each such
  surrogate is documented at its definition;
* Python functions that can raise return `Except PyError`;
* torch's RNG is passed explicitly as a stream `ℕ → ℚ`.
-/

namespace ModelHelper

/-- A tensor (or flattened parameter block): a list of exact rationals. -/
abbrev Vec := List ℚ

/-- A weight matrix: a list of rows. -/
abbrev Mat := List (List ℚ)

/-- The runtime errors the Python code can raise on the paths embedded here. -/
inductive PyError where
  | ioError
  | keyError
  | zeroDivisionError
  | sizeMismatch
deriving DecidableEq

/-- Python dict lookup `d[k]`, on an association-list representation. -/
def pyDictGet {α β : Type} [BEq α] (d : List (α × β)) (k : α) : Option β :=
  (d.find? (fun p => p.1 == k)).map Prod.snd

/-- Python dict update `d[k] = v`: overwrite in place if the key exists,
otherwise append (insertion order is preserved, as in Python dicts). -/
def pyDictInsert {α β : Type} [BEq α] (d : List (α × β)) (k : α) (v : β) : List (α × β) :=
  if d.any (fun p => p.1 == k) then d.map (fun p => if p.1 == k then (k, v) else p)
  else d ++ [(k, v)]

/-- Dot product of two vectors (tensor primitive; a length mismatch truncates,
which no claim exercises). -/
def dot (w x : Vec) : ℚ := (List.zipWith (· * ·) w x).sum

/-- `nn.Linear` forward: each output coordinate is a weight row dot the input,
plus the bias coordinate. -/
def linearForward (W : Mat) (b : Vec) (x : Vec) : Vec :=
  List.zipWith (fun row bi => dot row x + bi) W b

/-- `nn.ReLU` forward. -/
def reluV (x : Vec) : Vec := x.map (fun v => max v 0)

/-- Largest entry of a vector (0 for the empty vector). -/
def listMax (x : Vec) : ℚ := x.foldr max 0

/-- Models `nn.LogSoftmax(dim=1)` (external numeric primitive). The property
the source relies on is that every output coordinate is the corresponding input
shifted by one per-vector constant, so ordering and differences are preserved;
embedded with the vector maximum as that constant. -/
def logSoftmax (z : Vec) : Vec := z.map (fun v => v - listMax z)

/-- Models `torch.exp` (external numeric primitive): a strictly monotone,
everywhere-positive rational function, which is all the source relies on. -/
def qexp (v : ℚ) : ℚ := if 0 ≤ v then v + 1 else 1 / (1 - v)

/-- The train / eval mode flag of a torch module. -/
inductive Mode where
  | train
  | eval
deriving DecidableEq

/-- The classifier head the source attaches: fc1 (1024 → 500), ReLU,
fc2 (500 → 102), LogSoftmax. Weights are stored per layer. -/
structure Classifier where
  fc1w : Mat
  fc1b : Vec
  fc2w : Mat
  fc2b : Vec
deriving DecidableEq

/-- `model.state_dict()`: every parameter tensor of the model, keyed by layer
(the frozen feature block plus the four classifier tensors). -/
structure StateDict where
  features : Vec
  fc1w : Mat
  fc1b : Vec
  fc2w : Mat
  fc2b : Vec
deriving DecidableEq

/-- The torchvision densenet121 model object after the source replaces its
classifier: frozen feature weights (with their requires_grad flag), the
classifier head, the `class_to_idx` attribute the source stores on the object,
and the train/eval mode flag. -/
structure Model where
  featuresParams : Vec
  featuresRequiresGrad : Bool
  classifier : Classifier
  class_to_idx : List (ℕ × String)
  mode : Mode
deriving DecidableEq

def Model.state_dict (m : Model) : StateDict :=
  ⟨m.featuresParams, m.classifier.fc1w, m.classifier.fc1b, m.classifier.fc2w, m.classifier.fc2b⟩

/-- Models the pretrained densenet121 feature weights that
`models.densenet121(pretrained=True)` fetches (external collaborator): a fixed
parameter vector. -/
def densenetPretrainedFeatures : Vec := [1, -1, 1/2, 2]

/-- Models the frozen densenet feature extractor's forward pass (external
collaborator, out of scope per the spec): an opaque deterministic function of
the feature weights and the input. -/
def densenetFeatures (w : Vec) (x : Vec) : Vec := w.map (fun c => c * x.sum)

/-- Forward pass of the replaced classifier head (source lines 24–29 / 67–72):
fc1, ReLU, fc2, LogSoftmax. -/
def classifierForward (c : Classifier) (x : Vec) : Vec :=
  logSoftmax (linearForward c.fc2w c.fc2b (reluV (linearForward c.fc1w c.fc1b x)))

/-- Eval-mode forward pass of the whole model on one example:
frozen features, then the classifier head. -/
def modelForward (m : Model) (x : Vec) : Vec :=
  classifierForward m.classifier (densenetFeatures m.featuresParams x)

/-- Output width of the classifier head: the length of every forward output. -/
def Model.outputWidth (m : Model) : ℕ := min m.classifier.fc2w.length m.classifier.fc2b.length

/-- Source line 41: `model.class_to_idx = {class_to_idx[k]: k for k in class_to_idx}` —
a Python dict comprehension that swaps keys and values, iterating in insertion
order (later duplicates of a swapped key overwrite earlier ones). -/
def invertMapping (class_to_idx : List (String × ℕ)) : List (ℕ × String) :=
  class_to_idx.foldl (fun acc p => pyDictInsert acc p.2 p.1) []

/-- `nn.Linear(inF, outF)`: a fresh layer whose weight and bias entries are
drawn from the explicit random stream `rng` starting at offset `off` (torch
draws them from its global RNG); the shape — an `outF × inF` weight matrix and
an `outF` bias — is fixed by the constructor call in the source. -/
def linearInit (inF outF : ℕ) (rng : ℕ → ℚ) (off : ℕ) : Mat × Vec :=
  ((List.range outF).map (fun i => (List.range inF).map (fun j => rng (off + i * inF + j))),
   (List.range outF).map (fun i => rng (off + outF * inF + i)))

/-- The classifier block the source builds twice, identically (lines 24–29 in
`create_model` and lines 67–72 in `load_checkpoint`):
Linear(1024, 500), ReLU, Linear(500, 102), LogSoftmax. -/
def freshClassifier (rng : ℕ → ℚ) : Classifier :=
  ⟨(linearInit 1024 500 rng 0).1, (linearInit 1024 500 rng 0).2,
   (linearInit 500 102 rng (1024 * 500 + 500)).1,
   (linearInit 500 102 rng (1024 * 500 + 500)).2⟩

/-- `optim.Adam(parameters, lr=0.001)` bound to the trainable (classifier)
parameters: the learning rate plus one running statistic pair per trainable
parameter (the external optimizer state the checkpoint records). -/
structure Optimizer where
  lr : ℚ
  stats : List (ℚ × ℚ)
deriving DecidableEq

/-- Number of trainable parameters: the four classifier tensors. -/
def classifierParamCount : ℕ := 1024 * 500 + 500 + 500 * 102 + 102

/-- `nn.NLLLoss()` with its default mean reduction (external loss primitive):
the mean over the batch of the negated predicted log-probability at the true
label. -/
def nllLoss (outputs : List Vec) (labels : List ℕ) : ℚ :=
  (((outputs.zip labels).map (fun p => -(p.1.getD p.2 0))).sum) / (outputs.length : ℚ)

/-- Source lines 11–43, `create_model(arch, class_to_idx)`. The body never
consults `arch` and has no error branch, so it returns ok unconditionally (the
`Except` result type records that a Python function could raise). It loads the
pretrained densenet121, freezes its parameters, replaces the classifier with a
fresh head whose output size is the constant 102, builds an Adam optimizer over
the trainable parameters and the NLL criterion, and stores the inverted label
mapping on the model. -/
def create_model (arch : String) (class_to_idx : List (String × ℕ)) (rng : ℕ → ℚ) :
    Except PyError (Model × Optimizer × (List Vec → List ℕ → ℚ)) :=
  let model : Model :=
    { featuresParams := densenetPretrainedFeatures
      featuresRequiresGrad := false
      classifier := freshClassifier rng
      class_to_idx := invertMapping class_to_idx
      mode := Mode.train }
  let optimizer : Optimizer :=
    { lr := 1 / 1000, stats := List.replicate classifierParamCount (0, 0) }
  Except.ok (model, optimizer, nllLoss)

/-- The record `torch.save` writes at source lines 47–55. -/
structure Checkpoint where
  epoch : ℕ
  arch : String
  state_dict : StateDict
  optimizer : List (ℚ × ℚ)
  class_to_idx : List (ℕ × String)
deriving DecidableEq

/-- The file system as `torch.save` / `torch.load` see it: path ↦ record. -/
abbrev Store := List (String × Checkpoint)

/-- Source lines 46–58, `save_checkpoint(file_path, model, optimizer,
total_epochs)`. -/
def save_checkpoint (store : Store) (file_path : String) (model : Model)
    (optimizer : Optimizer) (total_epochs : ℕ) : Store :=
  pyDictInsert store file_path
    { epoch := total_epochs
      arch := "densenet121"
      state_dict := model.state_dict
      optimizer := optimizer.stats
      class_to_idx := model.class_to_idx }

/-- The tensor shapes of a state dict — the data torch's strict
`load_state_dict` compares. -/
def shapeOf (sd : StateDict) : ℕ × List ℕ × ℕ × List ℕ × ℕ :=
  (sd.features.length, sd.fc1w.map List.length, sd.fc1b.length,
   sd.fc2w.map List.length, sd.fc2b.length)

/-- The shapes of every model this program builds: the pretrained feature block
plus the 1024 → 500 → 102 classifier. -/
def standardShape : ℕ × List ℕ × ℕ × List ℕ × ℕ :=
  (densenetPretrainedFeatures.length, List.replicate 500 1024, 500,
   List.replicate 102 500, 102)

/-- A model whose parameter tensors have the program's standard shapes. -/
def standardShapes (m : Model) : Prop := shapeOf m.state_dict = standardShape

/-- torch's `Module.load_state_dict` (strict mode): replaces every parameter of
the model with the checkpoint's tensors; a shape mismatch raises an error. -/
def load_state_dict (m : Model) (sd : StateDict) : Except PyError Model :=
  if shapeOf m.state_dict = shapeOf sd then
    Except.ok { m with featuresParams := sd.features,
                       classifier := ⟨sd.fc1w, sd.fc1b, sd.fc2w, sd.fc2b⟩ }
  else Except.error PyError.sizeMismatch

/-- Source lines 62–74: a fresh pretrained densenet121 with the classifier
replaced. A fresh torch module is in train mode and its parameters have
requires_grad True (the load path, unlike `create_model`, never freezes them);
the `class_to_idx` attribute does not exist until line 79 assigns it, embedded
as the empty table (it is never read before that assignment). -/
def freshDensenet (rng : ℕ → ℚ) : Model :=
  { featuresParams := densenetPretrainedFeatures
    featuresRequiresGrad := true
    classifier := freshClassifier rng
    class_to_idx := []
    mode := Mode.train }

/-- Source lines 61–84, `load_checkpoint(file_path)`. `torch.load` of a missing
path raises an I/O error. The second component of the ok result is the epoch
count the function reports in its "Checkpoint Loaded" message (line 81). -/
def load_checkpoint (store : Store) (rng : ℕ → ℚ) (file_path : String) :
    Except PyError (Model × ℕ) :=
  match pyDictGet store file_path with
  | none => Except.error PyError.ioError
  | some state =>
    match load_state_dict (freshDensenet rng) state.state_dict with
    | Except.error e => Except.error e
    | Except.ok model =>
      Except.ok ({ model with class_to_idx := state.class_to_idx }, state.epoch)

/-- The in-memory program state around checkpoint calls: the current model and
the current optimizer. -/
structure Env where
  model : Model
  optimizer : Optimizer
deriving DecidableEq

/-- A call site `model = load_checkpoint(path)`: the returned model replaces the
in-memory model; the body of `load_checkpoint` (source lines 61–84) never reads
or writes any optimizer, so the in-memory optimizer is untouched. -/
def loadEnv (env : Env) (store : Store) (rng : ℕ → ℚ) (file_path : String) :
    Except PyError (Env × ℕ) :=
  match load_checkpoint store rng file_path with
  | Except.error e => Except.error e
  | Except.ok (m, e) => Except.ok ({ env with model := m }, e)

/-- The model `load_checkpoint` reconstructs from a checkpoint saved from `m`:
the same parameters and label mapping on a fresh (unfrozen, train-mode)
densenet121. -/
def reloaded (m : Model) : Model :=
  { featuresParams := m.featuresParams
    featuresRequiresGrad := true
    classifier := m.classifier
    class_to_idx := m.class_to_idx
    mode := Mode.train }

/-- Python division: raises ZeroDivisionError on a zero denominator. -/
def pydiv (a b : ℚ) : Except PyError ℚ :=
  if b = 0 then Except.error PyError.zeroDivisionError else Except.ok (a / b)

/-- Accumulator for `ps.max(1)[1]`: best index so far, its value, next index. -/
def argmaxGo : List ℚ → ℕ → ℚ → ℕ → ℕ
  | [], best, _, _ => best
  | v :: rest, best, bestv, i =>
    if bestv < v then argmaxGo rest i v (i + 1) else argmaxGo rest best bestv (i + 1)

/-- torch `.max(1)[1]` on one row: the index of the (first) largest entry. -/
def argmax : Vec → ℕ
  | [] => 0
  | v :: rest => argmaxGo rest 0 v 1

/-- One (input-batch, label-batch) pair produced by a data loader. -/
structure Batch where
  inputs : List Vec
  labels : List ℕ
deriving DecidableEq

/-- Source lines 108–114 for one batch: exponentiate the model's output, take
the per-example arg-max class, compare with the labels; the number of
matches. -/
def batchCorrect (m : Model) (b : Batch) : ℕ :=
  ((b.labels.zip (b.inputs.map (fun x => argmax ((modelForward m x).map qexp)))).filter
    (fun p => p.1 == p.2)).length

/-- Line 117, `equality.type_as(torch.FloatTensor()).mean()`: the fraction of
matching predictions within one batch. -/
def batchAccuracy (m : Model) (b : Batch) : ℚ :=
  (batchCorrect m b : ℚ) / (b.labels.length : ℚ)

/-- Source lines 87–119, `validate(model, criterion, data_loader, use_gpu)`.
`model.eval()` flips the mode flag on the model object (first component of the
result); `use_gpu` only moves tensors between devices and does not change the
computed values. The final `test_loss/len(data_loader)` and
`accuracy/len(data_loader)` are Python divisions, which raise on a zero
denominator. -/
def validate (model : Model) (criterion : List Vec → List ℕ → ℚ)
    (data_loader : List Batch) (use_gpu : Bool) : Model × Except PyError (ℚ × ℚ) :=
  let m := { model with mode := Mode.eval }
  let test_loss :=
    (data_loader.map (fun b => criterion (b.inputs.map (modelForward m)) b.labels)).sum
  let accuracy := (data_loader.map (fun b => batchAccuracy m b)).sum
  (m, do
    let l ← pydiv test_loss (data_loader.length : ℚ)
    let a ← pydiv accuracy (data_loader.length : ℚ)
    pure (l, a))

/-- The accuracy the specification's sentence describes, stated from the spec's
words for comparison with `validate`: examples whose arg-max prediction matches
the true label, divided by the total number of examples across all batches. -/
def claimAccuracy (m : Model) (dl : List Batch) : ℚ :=
  ((dl.map (fun b => (batchCorrect m b : ℚ))).sum) /
    (((dl.map (fun b => b.labels.length)).sum : ℕ) : ℚ)

/-- The comparison `torch.Tensor.topk` sorts by: non-increasing value (first
components of value-index pairs). -/
def probGE (p q : ℚ × ℕ) : Prop := q.1 ≤ p.1

instance : DecidableRel probGE := fun p q => inferInstanceAs (Decidable (q.1 ≤ p.1))

instance : IsTotal (ℚ × ℕ) probGE := ⟨fun a b => le_total b.1 a.1⟩

instance : IsTrans (ℚ × ℕ) probGE := ⟨fun _ _ _ hab hbc => le_trans hbc hab⟩

/-- `torch.Tensor.topk k` (external): the k largest entries with their indices,
ordered by non-increasing value. -/
def torchTopk (x : Vec) (k : ℕ) : Vec × List ℕ :=
  let sorted := List.insertionSort probGE (x.zip (List.range x.length))
  ((sorted.take k).map Prod.fst, (sorted.take k).map Prod.snd)

/-- Decoded image files on disk, as `PIL.Image.open` sees them: path ↦ decoded
pixel data. A missing or unreadable path raises an I/O error. -/
abbrev ImageStore := List (String × Vec)

/-- Modelled from the spec: `utility.process_image` lives in `utility.py`,
which is not among the source files. Per the spec (§2, §6) the Image
Preprocessor turns a decoded image into a fixed-size normalized numeric array;
embedded as a deterministic normalization of the decoded data. -/
def process_image (image : Vec) : Vec := image.map (fun v => v / 255 - 1 / 2)

/-- Source lines 212–214: `model.class_to_idx[label]` for each returned class
index, in order; a missing key raises KeyError. -/
def mapClasses (c2i : List (ℕ × String)) : List ℕ → Except PyError (List String)
  | [] => Except.ok []
  | i :: rest =>
    match pyDictGet c2i i with
    | none => Except.error PyError.keyError
    | some lbl =>
      match mapClasses c2i rest with
      | Except.error e => Except.error e
      | Except.ok tail => Except.ok (lbl :: tail)

/-- Source lines 181–217, `predict(image_path, model, use_gpu, topk=5)`. The
`unsqueeze(0)` / row-0 indexing pair (a batch of one) is collapsed;
`model.eval()` only toggles the mode flag, which the forward pass does not
read; `use_gpu` only moves tensors between devices. -/
def predict (images : ImageStore) (image_path : String) (model : Model)
    (use_gpu : Bool) (topk : ℕ := 5) : Except PyError (List ℚ × List String) :=
  match pyDictGet images image_path with
  | none => Except.error PyError.ioError
  | some image =>
    let np_array := process_image image
    let output := modelForward model np_array
    let ps := torchTopk (output.map qexp) topk
    match mapClasses model.class_to_idx ps.2 with
    | Except.error e => Except.error e
    | Except.ok mapped_classes => Except.ok (ps.1, mapped_classes)

/-- The state the training loop threads: the model, the optimizer, the global
step counter, the running loss of the current reporting window, and the lines
printed so far (epoch number, averaged training loss, validation loss,
validation accuracy). -/
structure TrainState where
  model : Model
  optimizer : Optimizer
  steps : ℕ
  running_loss : ℚ
  logs : List (ℕ × ℚ × ℚ × ℚ)
deriving DecidableEq

/-- Source line 127. -/
def print_every : ℕ := 40

/-- Models `loss.backward()` followed by `optimizer.step()` (external autograd
and Adam primitives): an opaque deterministic update, driven by the loss, of
the trainable classifier parameters and of the per-parameter running
statistics. The frozen feature weights have requires_grad False and are not
updated. -/
def optimizerStep (opt : Optimizer) (c : Classifier) (loss : ℚ) : Optimizer × Classifier :=
  ({ opt with stats := opt.stats.map (fun s => (s.1 + loss, s.2 + loss * loss)) },
   { c with fc1b := c.fc1b.map (fun v => v - opt.lr * loss),
            fc2b := c.fc2b.map (fun v => v - opt.lr * loss) })

/-- Source lines 134–178, the body of the inner training loop for one batch:
bump the step counter, forward, loss, backward and optimizer step, accumulate
the running loss; every `print_every` steps run `validate`, record the printed
line, reset the running loss, and put the model back in train mode. -/
def trainBatch (criterion : List Vec → List ℕ → ℚ) (vdl : List Batch) (use_gpu : Bool)
    (epoch : ℕ) (st : TrainState) (b : Batch) : Except PyError TrainState :=
  let steps := st.steps + 1
  let output := b.inputs.map (modelForward st.model)
  let loss := criterion output b.labels
  let sc := optimizerStep st.optimizer st.model.classifier loss
  let model := { st.model with classifier := sc.2 }
  let running_loss := st.running_loss + loss
  if steps % print_every = 0 then
    match validate model criterion vdl use_gpu with
    | (m, Except.ok la) =>
      Except.ok { model := { m with mode := Mode.train }
                  optimizer := sc.1
                  steps := steps
                  running_loss := 0
                  logs := st.logs ++ [(epoch + 1, running_loss / (print_every : ℚ), la.1, la.2)] }
    | (_, Except.error e) => Except.error e
  else
    Except.ok { st with model := model, optimizer := sc.1, steps := steps,
                        running_loss := running_loss }

/-- One epoch of source lines 130–178: reset the running loss, then iterate all
training batches. -/
def trainEpoch (criterion : List Vec → List ℕ → ℚ) (vdl tdl : List Batch) (use_gpu : Bool)
    (epoch : ℕ) (st : TrainState) : Except PyError TrainState :=
  tdl.foldlM (fun s b => trainBatch criterion vdl use_gpu epoch s b)
    { st with running_loss := 0 }

/-- Source lines 122–178, `train(model, criterion, optimizer, epochs,
training_data_loader, validation_data_loader, use_gpu)`. -/
def train (model : Model) (criterion : List Vec → List ℕ → ℚ) (optimizer : Optimizer)
    (epochs : ℕ) (training_data_loader validation_data_loader : List Batch)
    (use_gpu : Bool) : Except PyError TrainState :=
  (List.range epochs).foldlM
    (fun st epoch =>
      trainEpoch criterion validation_data_loader training_data_loader use_gpu epoch st)
    { model := { model with mode := Mode.train }
      optimizer := optimizer
      steps := 0
      running_loss := 0
      logs := [] }

/-- The payload of an ok result, for evaluating concrete runs. -/
def exceptOk {ε α : Type} : Except ε α → Option α
  | Except.ok a => some a
  | Except.error _ => none

/-- The payload of an error result, for evaluating concrete runs. -/
def exceptErr {ε α : Type} : Except ε α → Option ε
  | Except.ok _ => none
  | Except.error e => some e

/-- A constant random stream, for concrete runs. -/
def rng0 : ℕ → ℚ := fun _ => 0

/-- A concrete model with the program's standard shapes (all-zero weights). -/
def mStd : Model :=
  { featuresParams := densenetPretrainedFeatures
    featuresRequiresGrad := false
    classifier :=
      ⟨List.replicate 500 (List.replicate 1024 0), List.replicate 500 0,
       List.replicate 102 (List.replicate 500 0), List.replicate 102 0⟩
    class_to_idx := [(0, "daisy"), (1, "rose")]
    mode := Mode.train }

/-- A concrete optimizer whose statistics get recorded in a checkpoint. -/
def opt1 : Optimizer := { lr := 1 / 1000, stats := [(1, 2)] }

/-- A concrete in-memory optimizer, different from `opt1`. -/
def opt2 : Optimizer := { lr := 1 / 1000, stats := [(5, 5)] }

/-- A concrete in-memory program state holding `opt2`. -/
def env0 : Env := { model := mStd, optimizer := opt2 }

/-- A small model whose forward output is always `[0, 1]` (empty first layer,
bias-only second layer), so the predicted class is always 1. -/
def mTiny : Model :=
  { featuresParams := [1]
    featuresRequiresGrad := false
    classifier := ⟨[], [], [[], []], [0, 1]⟩
    class_to_idx := [(0, "a"), (1, "b")]
    mode := Mode.train }

/-- A one-example batch whose label is the always-predicted class 1. -/
def b1 : Batch := { inputs := [[1]], labels := [1] }

/-- A three-example batch whose labels never match the predicted class. -/
def b2 : Batch := { inputs := [[1], [2], [3]], labels := [0, 0, 0] }

/-- A 102-wide bias with its unique largest entry at class index 101. -/
def c8bias : Vec := (List.range 102).map (fun i => if i == 101 then 1 else 0)

/-- A five-class label mapping (class indices 0–4 only). -/
def c8map : List (ℕ × String) := [(0, "a"), (1, "b"), (2, "c"), (3, "d"), (4, "e")]

/-- A standard-shape state dict with zero weights except `c8bias`. -/
def c8sd : StateDict :=
  ⟨densenetPretrainedFeatures,
   List.replicate 500 (List.replicate 1024 0), List.replicate 500 0,
   List.replicate 102 (List.replicate 500 0), c8bias⟩

/-- A checkpoint holding `c8sd` and the five-class mapping. -/
def c8ckpt : Checkpoint :=
  { epoch := 7, arch := "densenet121", state_dict := c8sd, optimizer := [],
    class_to_idx := c8map }

/-- A store holding `c8ckpt` at path "ckpt". -/
def store8 : Store := [("ckpt", c8ckpt)]

/-- The model `load_checkpoint` reconstructs from `store8`. -/
def c8model : Model :=
  { featuresParams := densenetPretrainedFeatures
    featuresRequiresGrad := true
    classifier := ⟨List.replicate 500 (List.replicate 1024 0), List.replicate 500 0,
                   List.replicate 102 (List.replicate 500 0), c8bias⟩
    class_to_idx := c8map
    mode := Mode.train }

/-- One readable decoded image, at path "flower.jpg". -/
def images8 : ImageStore := [("flower.jpg", [2])]

/-- A five-class model whose label mapping covers every class index it can
output. -/
def m5 : Model :=
  { featuresParams := [1]
    featuresRequiresGrad := false
    classifier := ⟨[[1]], [0], [[1], [2], [3], [4], [5]], [0, 0, 0, 0, 0]⟩
    class_to_idx := [(0, "a"), (1, "b"), (2, "c"), (3, "d"), (4, "e")]
    mode := Mode.eval }

/-- A concrete label mapping with two classes (a bijection onto {0, 1}). -/
def c3map : List (String × ℕ) := [("daisy", 0), ("rose", 1)]

/-! ## Lemmas about the embedded Python and torch primitives -/

theorem ex_bind_ok {ε α β : Type} (x : α) (f : α → Except ε β) :
    (Except.ok x >>= f) = f x := rfl

theorem ex_bind_err {ε α β : Type} (e : ε) (f : α → Except ε β) :
    ((Except.error e : Except ε α) >>= f) = Except.error e := rfl

theorem pyDictGet_cons {α β : Type} [BEq α] (q : α × β) (l : List (α × β)) (k : α) :
    pyDictGet (q :: l) k = if q.1 == k then some q.2 else pyDictGet l k := by
  cases hq : (q.1 == k) <;> simp [pyDictGet, List.find?, hq]

theorem pyDictGet_insert {α β : Type} [BEq α] [LawfulBEq α] :
    ∀ (d : List (α × β)) (k : α) (v : β), pyDictGet (pyDictInsert d k v) k = some v
  | [], k, v => by simp [pyDictInsert, pyDictGet]
  | q :: rest, k, v => by
    by_cases h : (q.1 == k) = true
    · rw [pyDictInsert, if_pos (by simp [List.any_cons, h])]
      simp [List.map_cons, h, pyDictGet_cons]
    · have h' : (q.1 == k) = false := by
        cases hq : (q.1 == k) with
        | true => exact absurd hq h
        | false => rfl
      by_cases ha : (rest.any (fun p => p.1 == k)) = true
      · rw [pyDictInsert, if_pos (by simp [List.any_cons, h', ha])]
        have hrec := pyDictGet_insert rest k v
        rw [pyDictInsert, if_pos ha] at hrec
        simp [List.map_cons, h', pyDictGet_cons, hrec]
      · have ha' : (rest.any (fun p => p.1 == k)) = false := by
          cases hq : (rest.any fun p => p.1 == k) with
          | true => exact absurd hq ha
          | false => rfl
        rw [pyDictInsert, if_neg (by simp [List.any_cons, h', ha'])]
        have hrec := pyDictGet_insert rest k v
        rw [pyDictInsert, if_neg (by simp [ha'])] at hrec
        simp [List.cons_append, pyDictGet_cons, h', hrec]

theorem pyDictGet_mem_values {α β : Type} [BEq α] (d : List (α × β)) (k : α) (v : β)
    (h : pyDictGet d k = some v) : v ∈ d.map Prod.snd := by
  unfold pyDictGet at h
  rcases Option.map_eq_some'.mp h with ⟨p, hp, hv⟩
  subst hv
  exact List.mem_map_of_mem Prod.snd (List.mem_of_find?_eq_some hp)

theorem pyDictInsert_of_fresh {α β : Type} [BEq α] (d : List (α × β)) (k : α) (v : β)
    (h : (d.any (fun p => p.1 == k)) = false) : pyDictInsert d k v = d ++ [(k, v)] := by
  rw [pyDictInsert, if_neg (by simp [h])]

/-- Folding Python dict inserts over fresh keys appends the swapped pairs in
order. -/
theorem invertMapping_go :
    ∀ (m : List (String × ℕ)) (acc : List (ℕ × String)),
      (m.map Prod.snd).Nodup →
      (∀ p ∈ m, (acc.any (fun q => q.1 == p.2)) = false) →
      m.foldl (fun a p => pyDictInsert a p.2 p.1) acc = acc ++ m.map (fun p => (p.2, p.1))
  | [], acc, _, _ => by simp
  | q :: rest, acc, hnd, hacc => by
    have h1 : (acc.any (fun r => r.1 == q.2)) = false := hacc q (List.mem_cons_self q rest)
    have hnd2 : (rest.map Prod.snd).Nodup := (List.nodup_cons.mp (by simpa using hnd)).2
    have hq2 : q.2 ∉ rest.map Prod.snd := (List.nodup_cons.mp (by simpa using hnd)).1
    rw [List.foldl_cons, pyDictInsert_of_fresh acc q.2 q.1 h1]
    rw [invertMapping_go rest (acc ++ [(q.2, q.1)]) hnd2 ?_]
    · simp
    · intro p hp
      rw [List.any_append]
      have ha : (acc.any (fun r => r.1 == p.2)) = false := hacc p (List.mem_cons_of_mem q hp)
      have hne : q.2 ≠ p.2 := by
        intro hcontra
        exact hq2 (hcontra ▸ List.mem_map_of_mem Prod.snd hp)
      simp [ha, hne]

theorem invertMapping_eq (m : List (String × ℕ)) (h : (m.map Prod.snd).Nodup) :
    invertMapping m = m.map (fun p => (p.2, p.1)) := by
  simpa [invertMapping] using invertMapping_go m [] h (fun p _ => rfl)

/-- Looking up an index in the swapped association list finds exactly the pairs
of the original mapping, when the original values are distinct. -/
theorem pyDictGet_swap :
    ∀ (m : List (String × ℕ)), (m.map Prod.snd).Nodup →
      ∀ (i : ℕ) (k : String),
        pyDictGet (m.map (fun p => (p.2, p.1))) i = some k ↔ (k, i) ∈ m
  | [], _, i, k => by simp [pyDictGet]
  | q :: rest, h, i, k => by
    have h2 : (rest.map Prod.snd).Nodup := (List.nodup_cons.mp (by simpa using h)).2
    have h3 : q.2 ∉ rest.map Prod.snd := (List.nodup_cons.mp (by simpa using h)).1
    rw [List.map_cons, pyDictGet_cons]
    by_cases hqi : q.2 = i
    · rw [if_pos (by simpa using hqi)]
      constructor
      · intro hs
        have hk : q.1 = k := by simpa using hs
        have hq : (k, i) = q := by rw [← hk, ← hqi]
        rw [hq]
        exact List.mem_cons_self q rest
      · intro hm
        rcases List.mem_cons.mp hm with h0 | h0
        · rw [← h0]
        · exact absurd (hqi ▸ List.mem_map_of_mem Prod.snd h0) h3
    · rw [if_neg (by simpa using hqi)]
      rw [pyDictGet_swap rest h2 i k]
      constructor
      · exact fun hm => List.mem_cons_of_mem q hm
      · intro hm
        rcases List.mem_cons.mp hm with h0 | h0
        · exact absurd (congrArg Prod.snd h0.symm) hqi
        · exact h0

/-- Output width of the classifier block built by the source: the constant
102, whatever the label mapping. -/
theorem freshClassifier_outputWidth (rng : ℕ → ℚ) :
    min (freshClassifier rng).fc2w.length (freshClassifier rng).fc2b.length = 102 := by
  simp [freshClassifier, linearInit]

/-- C2: the specification claims the classifier head's output width equals the
number of classes in the label mapping; the source hardcodes 102 (line 22), so
a one-class mapping still yields a 102-wide head. -/
theorem c2_output_width_counterexample :
    (exceptOk (create_model "densenet121" [("rose", 0)] rng0)).map
        (fun t => t.1.outputWidth) = some 102 ∧
      ([(("rose" : String), (0 : ℕ))].length = 1) ∧ (102 : ℕ) ≠ 1 := by
  refine ⟨?_, rfl, by decide⟩
  show some (Model.outputWidth _) = some 102
  rw [Option.some_inj]
  exact freshClassifier_outputWidth rng0

/-- C2 (amended): for every architecture string, label mapping and random
stream, the model returned by create_model has a classifier head of output
width 102 — the constant the source hardcodes; it equals the number of classes
only when the mapping has exactly 102 classes. -/
theorem c2_output_width_always_102 (arch : String) (M : List (String × ℕ)) (rng : ℕ → ℚ) :
    ∃ model opt crit, create_model arch M rng = Except.ok (model, opt, crit) ∧
      model.outputWidth = 102 := by
  refine ⟨_, _, _, rfl, ?_⟩
  show min (freshClassifier rng).fc2w.length (freshClassifier rng).fc2b.length = 102
  exact freshClassifier_outputWidth rng

/-- C3: for every label mapping that is a bijection (distinct keys, distinct
index values), the class_to_idx table stored on the created model is the exact
inverse of the mapping: it associates an index i with a label k precisely when
the mapping sends k to i. -/
theorem c3_class_to_idx_is_inverse (arch : String) (M : List (String × ℕ)) (rng : ℕ → ℚ)
    (hkeys : (M.map Prod.fst).Nodup) (hvals : (M.map Prod.snd).Nodup) :
    ∃ model opt crit, create_model arch M rng = Except.ok (model, opt, crit) ∧
      ∀ (i : ℕ) (k : String), pyDictGet model.class_to_idx i = some k ↔ (k, i) ∈ M := by
  refine ⟨_, _, _, rfl, ?_⟩
  intro i k
  show pyDictGet (invertMapping M) i = some k ↔ (k, i) ∈ M
  rw [invertMapping_eq M hvals]
  exact pyDictGet_swap M hvals i k

/-- Witness for C3 at a concrete two-class bijection. -/
theorem c3_class_to_idx_is_inverse_witness :
    (c3map.map Prod.fst).Nodup ∧ (c3map.map Prod.snd).Nodup ∧
      (∃ model opt crit, create_model "densenet121" c3map rng0 = Except.ok (model, opt, crit) ∧
        ∀ (i : ℕ) (k : String),
          pyDictGet model.class_to_idx i = some k ↔ (k, i) ∈ c3map) :=
  ⟨by decide, by decide,
   c3_class_to_idx_is_inverse "densenet121" c3map rng0 (by decide) (by decide)⟩

/-- C4: the specification claims an unsupported architecture identifier makes
create_model fail with a configuration error; the source never consults `arch`
(line 13 always loads densenet121), so create_model succeeds on "vgg16" too. -/
theorem c4_no_arch_check_counterexample :
    "vgg16" ≠ "densenet121" ∧
      (exceptOk (create_model "vgg16" c3map rng0)).isSome = true :=
  ⟨by decide, rfl⟩

/-- C4 (amended): create_model never raises a configuration error: for every
architecture identifier it returns a model, and the result does not depend on
the identifier at all. -/
theorem c4_create_model_ignores_arch (arch : String) (M : List (String × ℕ)) (rng : ℕ → ℚ) :
    (∃ model opt crit, create_model arch M rng = Except.ok (model, opt, crit)) ∧
      create_model arch M rng = create_model "densenet121" M rng :=
  ⟨⟨_, _, _, rfl⟩, rfl⟩

/-! ## Checkpoint save / load -/

theorem map_const_replicate {α β : Type} (b : β) :
    ∀ l : List α, l.map (fun _ => b) = List.replicate l.length b
  | [] => rfl
  | a :: t => by simp [map_const_replicate b t, List.replicate_succ]

theorem linearInit_fst_map_length (inF outF : ℕ) (rng : ℕ → ℚ) (off : ℕ) :
    (linearInit inF outF rng off).1.map List.length = List.replicate outF inF := by
  simp [linearInit, List.map_map, Function.comp_def, map_const_replicate]

theorem linearInit_snd_length (inF outF : ℕ) (rng : ℕ → ℚ) (off : ℕ) :
    (linearInit inF outF rng off).2.length = outF := by
  simp [linearInit]

/-- A freshly reconstructed densenet121 with the replaced classifier has the
program's standard shapes. -/
theorem shapeOf_freshDensenet (rng : ℕ → ℚ) :
    shapeOf (freshDensenet rng).state_dict = standardShape := by
  simp only [shapeOf, freshDensenet, Model.state_dict, freshClassifier, standardShape,
             linearInit_fst_map_length, linearInit_snd_length]

/-- The concrete model mStd has the standard shapes. -/
theorem standardShapes_mStd : standardShapes mStd := by
  simp only [standardShapes, shapeOf, mStd, Model.state_dict, standardShape,
             List.map_replicate, List.length_replicate]

/-- The concrete state dict c8sd has the standard shapes. -/
theorem shapeOf_c8sd : shapeOf c8sd = standardShape := by
  simp only [shapeOf, c8sd, standardShape, c8bias, List.map_replicate,
             List.length_replicate, List.length_map, List.length_range]

/-- Loading a standard-shape state dict into a fresh densenet121 succeeds and
replaces every parameter. -/
theorem load_state_dict_fresh (rng : ℕ → ℚ) (sd : StateDict)
    (h : shapeOf sd = standardShape) :
    load_state_dict (freshDensenet rng) sd =
      Except.ok { freshDensenet rng with
                  featuresParams := sd.features,
                  classifier := ⟨sd.fc1w, sd.fc1b, sd.fc2w, sd.fc2b⟩ } := by
  rw [load_state_dict, if_pos]
  rw [shapeOf_freshDensenet, h]

/-- load_checkpoint on a path holding a standard-shape checkpoint reconstructs
the model recorded there and reports the recorded epoch. -/
theorem load_checkpoint_found (store : Store) (rng : ℕ → ℚ) (path : String)
    (c : Checkpoint) (hfind : pyDictGet store path = some c)
    (hsh : shapeOf c.state_dict = standardShape) :
    load_checkpoint store rng path =
      Except.ok ({ freshDensenet rng with
                   featuresParams := c.state_dict.features,
                   classifier := ⟨c.state_dict.fc1w, c.state_dict.fc1b,
                                  c.state_dict.fc2w, c.state_dict.fc2b⟩,
                   class_to_idx := c.class_to_idx }, c.epoch) := by
  unfold load_checkpoint
  simp only [hfind]
  rw [load_state_dict_fresh rng c.state_dict hsh]

/-- Round trip through the checkpoint store: loading what save_checkpoint wrote
reconstructs `reloaded m` and reports the saved epoch count. -/
theorem load_save (store : Store) (path : String) (m : Model) (o : Optimizer)
    (E : ℕ) (rng : ℕ → ℚ) (h : standardShapes m) :
    load_checkpoint (save_checkpoint store path m o E) rng path =
      Except.ok (reloaded m, E) := by
  have hfind : pyDictGet (save_checkpoint store path m o E) path =
      some { epoch := E, arch := "densenet121", state_dict := m.state_dict,
             optimizer := o.stats, class_to_idx := m.class_to_idx } :=
    pyDictGet_insert store path _
  exact load_checkpoint_found (save_checkpoint store path m o E) rng path _ hfind h

/-- C1: for every starting store, path, standard-shape model, optimizer, epoch
count E and fresh-initialization stream, loading the checkpoint written by
save_checkpoint yields a model whose forward outputs agree with the pre-save
model on every input, and reports epoch count E. -/
theorem c1_round_trip (store : Store) (path : String) (m : Model) (o : Optimizer)
    (E : ℕ) (rng : ℕ → ℚ) (h : standardShapes m) :
    ∃ m2, load_checkpoint (save_checkpoint store path m o E) rng path =
        Except.ok (m2, E) ∧
      (∀ x : Vec, modelForward m2 x = modelForward m x) ∧
      m2.class_to_idx = m.class_to_idx :=
  ⟨reloaded m, load_save store path m o E rng h, fun _ => rfl, rfl⟩

/-- Witness for C1 at a concrete standard-shape model. -/
theorem c1_round_trip_witness :
    standardShapes mStd ∧
      ∃ m2, load_checkpoint (save_checkpoint [] "checkpoint.pth" mStd opt1 3)
            rng0 "checkpoint.pth" = Except.ok (m2, 3) ∧
        (∀ x : Vec, modelForward m2 x = modelForward mStd x) ∧
        m2.class_to_idx = mStd.class_to_idx :=
  ⟨standardShapes_mStd,
   c1_round_trip [] "checkpoint.pth" mStd opt1 3 rng0 standardShapes_mStd⟩

/-- At a call site, loading right after a save replaces the in-memory model
with the checkpoint's; the optimizer field of the state is whatever it was
before the call. -/
theorem loadEnv_save (env : Env) (store : Store) (path : String) (m : Model)
    (o : Optimizer) (E : ℕ) (rng : ℕ → ℚ) (h : standardShapes m) :
    loadEnv env (save_checkpoint store path m o E) rng path =
      Except.ok ({ model := reloaded m, optimizer := env.optimizer }, E) := by
  have h1 := load_save store path m o E rng h
  unfold loadEnv
  rw [h1]

/-- C5: the specification claims loading a checkpoint replaces the in-memory
optimizer state with the recorded one; load_checkpoint (source lines 61–84)
never reads the checkpoint's optimizer entry and returns only a model, so after
a load the in-memory optimizer still holds its old statistics [(5, 5)], not the
recorded [(1, 2)]. -/
theorem c5_optimizer_not_restored_counterexample :
    loadEnv env0 (save_checkpoint [] "checkpoint.pth" mStd opt1 3) rng0 "checkpoint.pth" =
        Except.ok ({ model := reloaded mStd, optimizer := opt2 }, 3) ∧
      opt2.stats ≠ opt1.stats :=
  ⟨loadEnv_save env0 [] "checkpoint.pth" mStd opt1 3 rng0 standardShapes_mStd,
   by norm_num [opt1, opt2]⟩

/-- C5 (amended): loading the checkpoint written by save_checkpoint fully
replaces the in-memory model (parameters and label mapping become the
checkpoint's), but the optimizer state recorded in the checkpoint is ignored:
the in-memory optimizer is returned unchanged. -/
theorem c5_load_replaces_model_only (env : Env) (store : Store) (path : String)
    (m : Model) (o : Optimizer) (E : ℕ) (rng : ℕ → ℚ) (h : standardShapes m) :
    loadEnv env (save_checkpoint store path m o E) rng path =
      Except.ok ({ model := reloaded m, optimizer := env.optimizer }, E) :=
  loadEnv_save env store path m o E rng h

/-- Witness for the amended C5 at a concrete environment and model. -/
theorem c5_load_replaces_model_only_witness :
    standardShapes mStd ∧
      loadEnv env0 (save_checkpoint [] "cp" mStd opt1 9) rng0 "cp" =
        Except.ok ({ model := reloaded mStd, optimizer := env0.optimizer }, 9) :=
  ⟨standardShapes_mStd,
   c5_load_replaces_model_only env0 [] "cp" mStd opt1 9 rng0 standardShapes_mStd⟩

/-! ## Validation -/

/-- C6: validate only flips the model's mode flag; every parameter — the whole
state dict, in particular the trainable classifier — is unchanged by a call,
for every criterion, data loader and device flag. -/
theorem c6_validate_preserves_parameters (m : Model)
    (criterion : List Vec → List ℕ → ℚ) (dl : List Batch) (use_gpu : Bool) :
    ((validate m criterion dl use_gpu).1).classifier = m.classifier ∧
      ((validate m criterion dl use_gpu).1).state_dict = m.state_dict :=
  ⟨rfl, rfl⟩

/-- C10: validate with a data loader of 0 batches does not return a
(loss, accuracy) pair: the final division by `len(data_loader)` is unguarded
and raises ZeroDivisionError. -/
theorem c10_validate_empty_loader_divides_by_zero (m : Model)
    (criterion : List Vec → List ℕ → ℚ) (use_gpu : Bool) :
    (validate m criterion [] use_gpu).2 = Except.error PyError.zeroDivisionError := by
  simp [validate, pydiv, ex_bind_err]

theorem pydiv_of_ne (a b : ℚ) (h : b ≠ 0) : pydiv a b = Except.ok (a / b) := by
  rw [pydiv, if_neg h]

/-- The per-batch accuracy does not depend on the mode flag: the forward pass
reads only the parameters. -/
theorem batchAccuracy_eval (m : Model) (b : Batch) :
    batchAccuracy { m with mode := Mode.eval } b = batchAccuracy m b := rfl

theorem batchCorrect_le (m : Model) (b : Batch) : batchCorrect m b ≤ b.labels.length := by
  unfold batchCorrect
  exact le_trans (List.length_filter_le _ _)
    (by rw [List.length_zip]; exact min_le_left _ _)

theorem batchAccuracy_nonneg (m : Model) (b : Batch) : 0 ≤ batchAccuracy m b := by
  unfold batchAccuracy
  exact div_nonneg (Nat.cast_nonneg _) (Nat.cast_nonneg _)

theorem batchAccuracy_le_one (m : Model) (b : Batch) : batchAccuracy m b ≤ 1 := by
  unfold batchAccuracy
  rcases eq_or_ne b.labels.length 0 with h | h
  · rw [h]
    simp
  · exact div_le_one_of_le₀ (by exact_mod_cast batchCorrect_le m b) (Nat.cast_nonneg _)

theorem sum_batchAccuracy_nonneg (m : Model) (dl : List Batch) :
    0 ≤ (dl.map (fun b => batchAccuracy m b)).sum :=
  List.sum_nonneg (fun x hx => by
    rcases List.mem_map.mp hx with ⟨b, _, rfl⟩
    exact batchAccuracy_nonneg m b)

theorem sum_batchAccuracy_le (m : Model) (dl : List Batch) :
    (dl.map (fun b => batchAccuracy m b)).sum ≤ (dl.length : ℚ) := by
  have h := List.sum_le_card_nsmul (dl.map (fun b => batchAccuracy m b)) 1 ?_
  · simpa [nsmul_eq_mul] using h
  · intro x hx
    rcases List.mem_map.mp hx with ⟨b, _, rfl⟩
    exact batchAccuracy_le_one m b

/-- C7: the specification claims the accuracy validate returns equals the
number of matched examples over the total number of examples; the source
instead averages the per-batch accuracies (lines 117 and 119), which differs
on unequal batch sizes: with a matched batch of size 1 and an unmatched batch
of size 3, validate reports 1/2 while the overall example fraction is 1/4. -/
theorem c7_accuracy_not_example_fraction_counterexample :
    (validate mTiny nllLoss [b1, b2] false).2 = Except.ok (1/2, 1/2) ∧
      claimAccuracy mTiny [b1, b2] = 1/4 ∧ ((1 : ℚ)/2 ≠ 1/4) := by
  refine ⟨?_, ?_, by norm_num⟩
  · norm_num [validate, batchAccuracy, batchCorrect, mTiny, b1, b2, modelForward,
      classifierForward, densenetFeatures, linearForward, reluV, logSoftmax, listMax,
      qexp, dot, argmax, argmaxGo, nllLoss, pydiv, List.zip, List.zipWith, List.filter,
      List.replicate, ex_bind_ok]
    simp only [show ((0 : ℕ) == (1 : ℕ)) = false from rfl]
    norm_num [ex_bind_ok]
  · norm_num [claimAccuracy, batchCorrect, mTiny, b1, b2, modelForward, classifierForward,
      densenetFeatures, linearForward, reluV, logSoftmax, listMax, qexp, dot, argmax,
      argmaxGo, List.zip, List.zipWith, List.filter, List.replicate]
    simp only [show ((0 : ℕ) == (1 : ℕ)) = false from rfl]
    norm_num

/-- C7 (amended): on a non-empty loader whose batches are non-empty, validate
returns an accuracy equal to the mean over batches of the per-batch fraction
of arg-max matches, and that value lies in [0, 1]. -/
theorem c7_validate_accuracy_batch_mean (m : Model) (criterion : List Vec → List ℕ → ℚ)
    (dl : List Batch) (use_gpu : Bool) (hne : dl ≠ [])
    (hb : ∀ b ∈ dl, b.labels ≠ []) :
    ∃ l, (validate m criterion dl use_gpu).2 =
        Except.ok (l, (dl.map (fun b => batchAccuracy m b)).sum / (dl.length : ℚ)) ∧
      0 ≤ (dl.map (fun b => batchAccuracy m b)).sum / (dl.length : ℚ) ∧
      (dl.map (fun b => batchAccuracy m b)).sum / (dl.length : ℚ) ≤ 1 := by
  have h0 : dl.length ≠ 0 := fun hlen => hne (List.length_eq_zero.mp hlen)
  have hq : ((dl.length : ℕ) : ℚ) ≠ 0 := Nat.cast_ne_zero.mpr h0
  have hpos : (0 : ℚ) < (dl.length : ℚ) := by exact_mod_cast Nat.pos_of_ne_zero h0
  have e1 : ∀ a : ℚ, pydiv a ((dl.length : ℕ) : ℚ) = Except.ok (a / (dl.length : ℚ)) :=
    fun a => pydiv_of_ne a _ hq
  refine ⟨(dl.map (fun b =>
      criterion (b.inputs.map (modelForward { m with mode := Mode.eval })) b.labels)).sum /
      (dl.length : ℚ), ?_, ?_, ?_⟩
  · simp only [validate, e1, ex_bind_ok, batchAccuracy_eval]
    rfl
  · exact div_nonneg (sum_batchAccuracy_nonneg m dl) (le_of_lt hpos)
  · exact (div_le_one hpos).mpr (sum_batchAccuracy_le m dl)

/-- Witness for the amended C7 on a concrete two-batch loader. -/
theorem c7_validate_accuracy_batch_mean_witness :
    ([b1, b2] ≠ ([] : List Batch)) ∧ (∀ b ∈ [b1, b2], b.labels ≠ []) ∧
      (∃ l, (validate mTiny nllLoss [b1, b2] false).2 =
          Except.ok (l, (([b1, b2] : List Batch).map (fun b => batchAccuracy mTiny b)).sum /
            ((([b1, b2] : List Batch).length : ℕ) : ℚ)) ∧
        0 ≤ (([b1, b2] : List Batch).map (fun b => batchAccuracy mTiny b)).sum /
            ((([b1, b2] : List Batch).length : ℕ) : ℚ) ∧
        (([b1, b2] : List Batch).map (fun b => batchAccuracy mTiny b)).sum /
            ((([b1, b2] : List Batch).length : ℕ) : ℚ) ≤ 1) :=
  ⟨by simp, by simp [b1, b2],
   c7_validate_accuracy_batch_mean mTiny nllLoss [b1, b2] false (by simp) (by simp [b1, b2])⟩

/-! ## Training -/

/-- An epoch over an empty training loader only resets the running loss. -/
theorem trainEpoch_nil_tdl (criterion : List Vec → List ℕ → ℚ) (vdl : List Batch)
    (use_gpu : Bool) (epoch : ℕ) (st : TrainState) :
    trainEpoch criterion vdl [] use_gpu epoch st =
      Except.ok { st with running_loss := 0 } := rfl

theorem trainState_eta (st : TrainState) (h : st.running_loss = 0) :
    { st with running_loss := 0 } = st := by
  cases st
  simp_all

theorem train_foldl_empty (criterion : List Vec → List ℕ → ℚ) (vdl : List Batch)
    (use_gpu : Bool) :
    ∀ (l : List ℕ) (st : TrainState), st.running_loss = 0 →
      l.foldlM (fun s e => trainEpoch criterion vdl [] use_gpu e s) st = Except.ok st
  | [], _, _ => rfl
  | e :: rest, st, h => by
    rw [List.foldlM_cons, trainEpoch_nil_tdl, trainState_eta st h, ex_bind_ok]
    exact train_foldl_empty criterion vdl use_gpu rest st h

/-- C9: train invoked with a training loader of 0 batches — for any epoch
count — completes without error, takes no optimizer step (the step counter
stays 0 and the optimizer state is returned unchanged), and leaves every model
parameter unchanged. -/
theorem c9_train_empty_loader (model : Model) (criterion : List Vec → List ℕ → ℚ)
    (optimizer : Optimizer) (epochs : ℕ) (vdl : List Batch) (use_gpu : Bool) :
    ∃ st, train model criterion optimizer epochs [] vdl use_gpu = Except.ok st ∧
      st.model.state_dict = model.state_dict ∧ st.optimizer = optimizer ∧
      st.steps = 0 := by
  refine ⟨{ model := { model with mode := Mode.train }, optimizer := optimizer,
            steps := 0, running_loss := 0, logs := [] }, ?_, rfl, rfl, rfl⟩
  exact train_foldl_empty criterion vdl use_gpu (List.range epochs) _ rfl

/-! ## Prediction -/

/-- Every forward output has the classifier head's output width. -/
theorem modelForward_length (m : Model) (x : Vec) :
    (modelForward m x).length = m.outputWidth := by
  simp [modelForward, classifierForward, logSoftmax, linearForward, Model.outputWidth]

/-- The probabilities topk returns are ordered by non-increasing value. -/
theorem torchTopk_fst_sorted (x : Vec) (k : ℕ) :
    (torchTopk x k).1.Pairwise (fun a b => b ≤ a) := by
  have hs : List.Sorted probGE (List.insertionSort probGE (x.zip (List.range x.length))) :=
    List.sorted_insertionSort probGE _
  have ht : ((List.insertionSort probGE (x.zip (List.range x.length))).take k).Pairwise
      probGE := hs.sublist (List.take_sublist k _)
  exact ht.map Prod.fst (fun a b hab => hab)

theorem torchTopk_fst_length (x : Vec) (k : ℕ) (h : k ≤ x.length) :
    (torchTopk x k).1.length = k := by
  unfold torchTopk
  rw [List.length_map, List.length_take, List.length_insertionSort, List.length_zip,
      List.length_range, min_self]
  exact min_eq_left h

theorem torchTopk_snd_length (x : Vec) (k : ℕ) (h : k ≤ x.length) :
    (torchTopk x k).2.length = k := by
  unfold torchTopk
  rw [List.length_map, List.length_take, List.length_insertionSort, List.length_zip,
      List.length_range, min_self]
  exact min_eq_left h

/-- Every class index topk returns indexes into the scored vector. -/
theorem torchTopk_idx_lt (x : Vec) (k : ℕ) :
    ∀ i ∈ (torchTopk x k).2, i < x.length := by
  intro i hi
  unfold torchTopk at hi
  rcases List.mem_map.mp hi with ⟨p, hp, rfl⟩
  have hp2 : p ∈ List.insertionSort probGE (x.zip (List.range x.length)) :=
    (List.take_sublist _ _).subset hp
  have hp3 : p ∈ x.zip (List.range x.length) :=
    (List.perm_insertionSort probGE _).subset hp2
  obtain ⟨pv, pi⟩ := p
  exact List.mem_range.mp (List.of_mem_zip hp3).2

/-- When every requested index has an entry, the label lookup loop succeeds
and returns one label of the table per index, in order. -/
theorem mapClasses_ok (c2i : List (ℕ × String)) :
    ∀ idxs : List ℕ, (∀ i ∈ idxs, (pyDictGet c2i i).isSome = true) →
      ∃ lbls, mapClasses c2i idxs = Except.ok lbls ∧ lbls.length = idxs.length ∧
        ∀ s ∈ lbls, s ∈ c2i.map Prod.snd
  | [], _ => ⟨[], rfl, rfl, by simp⟩
  | i :: rest, h => by
    have hi := h i (List.mem_cons_self i rest)
    rcases Option.isSome_iff_exists.mp hi with ⟨lbl, hlbl⟩
    rcases mapClasses_ok c2i rest (fun j hj => h j (List.mem_cons_of_mem i hj)) with
      ⟨tail, ht, hlen, hmem⟩
    refine ⟨lbl :: tail, ?_, by simp [hlen], ?_⟩
    · simp only [mapClasses, hlbl, ht]
    · intro s hs
      rcases List.mem_cons.mp hs with h0 | h0
      · exact h0 ▸ pyDictGet_mem_values c2i i lbl hlbl
      · exact hmem s h0

/-- C8 (amended): for a readable image and a model whose label mapping has an
entry for every class index the head can output (and at least 5 of them),
predict with K = 5 returns exactly 5 probabilities ordered by non-increasing
value and 5 labels drawn from the label mapping. The coverage hypothesis is
needed: the head of a loaded model always outputs 102 scores, so a mapping
with at least 5 but fewer than 102 entries can make predict raise a KeyError
instead (see the counterexample). -/
theorem c8_predict_topk (images : ImageStore) (image_path : String) (m : Model)
    (use_gpu : Bool) (img : Vec)
    (himg : pyDictGet images image_path = some img)
    (hcov : ∀ i < m.outputWidth, (pyDictGet m.class_to_idx i).isSome = true)
    (hk : 5 ≤ m.outputWidth) :
    ∃ probs labels, predict images image_path m use_gpu 5 = Except.ok (probs, labels) ∧
      probs.length = 5 ∧ labels.length = 5 ∧
      probs.Pairwise (fun a b => b ≤ a) ∧
      ∀ s ∈ labels, s ∈ m.class_to_idx.map Prod.snd := by
  set v := (modelForward m (process_image img)).map qexp with hv
  have hlen : v.length = m.outputWidth := by
    rw [hv, List.length_map, modelForward_length]
  have hk5 : 5 ≤ v.length := by rw [hlen]; exact hk
  have hidx : ∀ i ∈ (torchTopk v 5).2, (pyDictGet m.class_to_idx i).isSome = true := by
    intro i hi
    exact hcov i (hlen ▸ torchTopk_idx_lt v 5 i hi)
  rcases mapClasses_ok m.class_to_idx (torchTopk v 5).2 hidx with ⟨lbls, hmc, hlen2, hmem⟩
  refine ⟨(torchTopk v 5).1, lbls, ?_, ?_, ?_, ?_, hmem⟩
  · simp only [predict, himg]
    rw [← hv, hmc]
  · exact torchTopk_fst_length v 5 hk5
  · rw [hlen2]
    exact torchTopk_snd_length v 5 hk5
  · exact torchTopk_fst_sorted v 5

/-- Witness for the amended C8 on a concrete 5-class model whose mapping covers
all its class indices. -/
theorem c8_predict_topk_witness :
    pyDictGet images8 "flower.jpg" = some [2] ∧
      (∀ i < m5.outputWidth, (pyDictGet m5.class_to_idx i).isSome = true) ∧
      5 ≤ m5.outputWidth ∧
      (∃ probs labels, predict images8 "flower.jpg" m5 false 5 = Except.ok (probs, labels) ∧
        probs.length = 5 ∧ labels.length = 5 ∧
        probs.Pairwise (fun a b => b ≤ a) ∧
        ∀ s ∈ labels, s ∈ m5.class_to_idx.map Prod.snd) :=
  ⟨rfl, by decide, by decide,
   c8_predict_topk images8 "flower.jpg" m5 false [2] rfl (by decide) (by decide)⟩

theorem dot_replicate_zero : ∀ (n : ℕ) (x : Vec), dot (List.replicate n 0) x = 0
  | 0, x => by simp [dot]
  | n + 1, [] => by simp [dot]
  | n + 1, a :: rest => by
    have h := dot_replicate_zero n rest
    simp only [dot] at h
    simp [dot, List.replicate_succ, h]

/-- A linear layer whose weight rows are all zero passes the bias through. -/
theorem linearForward_zeroW : ∀ (n mdim : ℕ) (b : Vec) (x : Vec),
    linearForward (List.replicate n (List.replicate mdim 0)) b x = b.take n
  | 0, _, b, x => by simp [linearForward]
  | n + 1, mdim, [], x => by simp [linearForward]
  | n + 1, mdim, bi :: rest, x => by
    have h := linearForward_zeroW n mdim rest x
    simp only [linearForward] at h
    simp only [linearForward, List.replicate_succ, List.zipWith_cons_cons,
      dot_replicate_zero, zero_add, List.take_succ_cons, h]

theorem reluV_replicate_zero (n : ℕ) :
    reluV (List.replicate n (0 : ℚ)) = List.replicate n 0 := by
  simp [reluV, List.map_replicate]

/-- The zero-weight standard-shape model `c8model` outputs the log-softmax of
its fc2 bias on every input. -/
theorem modelForward_c8model (x : Vec) :
    modelForward c8model x = logSoftmax c8bias := by
  have hb : c8bias.length = 102 := by simp [c8bias]
  simp only [modelForward, classifierForward, c8model]
  rw [linearForward_zeroW, List.take_of_length_le (le_of_eq hb)]

theorem listMax_le (b : ℚ) :
    ∀ x : Vec, 0 ≤ b → (∀ v ∈ x, v ≤ b) → listMax x ≤ b
  | [], hb, _ => by simpa [listMax] using hb
  | a :: t, hb, h => by
    simp only [listMax, List.foldr_cons]
    exact max_le (h a (List.mem_cons_self a t))
      (listMax_le b t hb (fun v hv => h v (List.mem_cons_of_mem a hv)))

theorem le_listMax : ∀ (x : Vec) (v : ℚ), v ∈ x → v ≤ listMax x
  | [], v, h => by simp at h
  | a :: t, v, h => by
    simp only [listMax, List.foldr_cons]
    rcases List.mem_cons.mp h with h0 | h0
    · rw [h0]
      exact le_max_left _ _
    · exact le_trans (le_listMax t v h0) (le_max_right _ _)

theorem listMax_c8bias : listMax c8bias = 1 := by
  apply le_antisymm
  · apply listMax_le 1 c8bias (by norm_num)
    intro v hv
    rw [c8bias] at hv
    rcases List.mem_map.mp hv with ⟨i, _, rfl⟩
    by_cases h : (i == 101) = true
    · simp [h]
    · have h' : (i == 101) = false := by
        cases hq : (i == 101) with
        | true => exact absurd hq h
        | false => rfl
      simp [h']
  · refine le_listMax c8bias 1 ?_
    simp only [c8bias]
    refine List.mem_map.mpr ⟨101, List.mem_range.mpr (by norm_num), by simp⟩

/-- The exponentiated forward output of `c8model`: 1 at class index 101 and
1/2 everywhere else. -/
theorem c8ps_eq : (logSoftmax c8bias).map qexp =
    (List.range 102).map (fun i => if i == 101 then (1 : ℚ) else 1/2) := by
  simp only [logSoftmax, listMax_c8bias]
  simp only [c8bias, List.map_map]
  apply List.map_congr_left
  intro i _
  simp only [Function.comp_apply]
  by_cases h : (i == 101) = true
  · simp only [h, if_true]
    norm_num [qexp]
  · have h' : (i == 101) = false := by
      cases hq : (i == 101) with
      | true => exact absurd hq h
      | false => rfl
    simp only [h', Bool.false_eq_true, if_false]
    norm_num [qexp]

theorem zip_map_self_mem {α β : Type} (g : α → β) :
    ∀ (l : List α) (p : β × α), p ∈ (l.map g).zip l → p = (g p.2, p.2)
  | [], p, h => by simp at h
  | a :: t, p, h => by
    simp only [List.map_cons, List.zip_cons_cons] at h
    rcases List.mem_cons.mp h with h0 | h0
    · rw [h0]
    · exact zip_map_self_mem g t p h0

theorem mem_zip_map_self {α β : Type} (g : α → β) :
    ∀ (l : List α) (a : α), a ∈ l → (g a, a) ∈ (l.map g).zip l
  | [], a, h => by simp at h
  | b :: t, a, h => by
    simp only [List.map_cons, List.zip_cons_cons]
    rcases List.mem_cons.mp h with h0 | h0
    · rw [h0]
      exact List.mem_cons_self _ _
    · exact List.mem_cons_of_mem _ (mem_zip_map_self g t a h0)

/-- When a scored vector has a unique strict maximum at index j, torchTopk
lists j first. -/
theorem torchTopk_head_of_unique_max (g : ℕ → ℚ) (n j k : ℕ) (hj : j < n)
    (hmax : ∀ i, i < n → i ≠ j → g i < g j) :
    ∃ rest, (torchTopk ((List.range n).map g) (k + 1)).2 = j :: rest := by
  have hlen : ((List.range n).map g).length = n := by simp
  have hrange : List.range ((List.range n).map g).length = List.range n := by rw [hlen]
  have hslen : (List.insertionSort probGE
      (((List.range n).map g).zip (List.range ((List.range n).map g).length))).length = n := by
    rw [List.length_insertionSort, List.length_zip, hlen, List.length_range, min_self]
  cases hcase : List.insertionSort probGE
      (((List.range n).map g).zip (List.range ((List.range n).map g).length)) with
  | nil =>
    rw [hcase] at hslen
    simp at hslen
    omega
  | cons q t =>
    have hsorted : List.Sorted probGE (q :: t) := by
      rw [← hcase]
      exact List.sorted_insertionSort probGE _
    have hqt : ∀ p ∈ t, probGE q p := (List.sorted_cons.mp hsorted).1
    have hperm : (q :: t).Perm (((List.range n).map g).zip (List.range n)) := by
      rw [← hcase, hrange]
      exact List.perm_insertionSort probGE _
    have hq_mem : q ∈ ((List.range n).map g).zip (List.range n) :=
      hperm.subset (List.mem_cons_self q t)
    have hq_eq : q = (g q.2, q.2) := zip_map_self_mem g (List.range n) q hq_mem
    have hq_lt : q.2 < n := List.mem_range.mp (List.of_mem_zip hq_mem).2
    have hjmem : (g j, j) ∈ ((List.range n).map g).zip (List.range n) :=
      mem_zip_map_self g (List.range n) j (List.mem_range.mpr hj)
    have hjmem2 : (g j, j) ∈ q :: t := hperm.symm.subset hjmem
    have hq2 : q.2 = j := by
      rcases List.mem_cons.mp hjmem2 with h0 | h0
      · have := congrArg Prod.snd h0
        simpa using this.symm
      · have hle : g j ≤ q.1 := hqt _ h0
        by_contra hne
        have hlt : g q.2 < g j := hmax q.2 hq_lt hne
        rw [hq_eq] at hle
        simp at hle
        exact absurd (lt_of_le_of_lt hle hlt) (lt_irrefl _)
    refine ⟨(t.take k).map Prod.snd, ?_⟩
    show ((List.insertionSort probGE
        (((List.range n).map g).zip
          (List.range ((List.range n).map g).length))).take (k + 1)).map Prod.snd =
      j :: (t.take k).map Prod.snd
    rw [hcase, List.take_succ_cons, List.map_cons, hq2]

/-- Class index 101 is the first index `predict` looks up for `c8model`. -/
theorem c8_topk_head :
    ∃ rest, (torchTopk ((logSoftmax c8bias).map qexp) 5).2 = 101 :: rest := by
  rw [c8ps_eq]
  refine torchTopk_head_of_unique_max _ 102 101 4 (by norm_num) ?_
  intro i hi hne
  have h' : (i == 101) = false := by
    cases hq : (i == 101) with
    | true => exact absurd (by simpa using hq) hne
    | false => rfl
  simp only [h', Bool.false_eq_true, if_false, beq_self_eq_true, if_true]
  norm_num

/-- C8: the specification claims predict with K = 5 returns five
(probability, label) pairs for every loaded model with at least five classes;
loading the checkpoint `c8ckpt` — whose label mapping has exactly the five
classes 0–4 while the head still outputs 102 scores, with weights that put the
largest score at class index 101 — and predicting on a readable image raises a
KeyError instead of returning pairs. -/
theorem c8_partial_mapping_counterexample :
    load_checkpoint store8 rng0 "ckpt" = Except.ok (c8model, 7) ∧
      5 ≤ c8model.class_to_idx.length ∧
      (pyDictGet images8 "flower.jpg").isSome = true ∧
      predict images8 "flower.jpg" c8model false 5 = Except.error PyError.keyError := by
  refine ⟨load_checkpoint_found store8 rng0 "ckpt" c8ckpt rfl shapeOf_c8sd, by decide, rfl, ?_⟩
  rcases c8_topk_head with ⟨rest, hhead⟩
  have himg : pyDictGet images8 "flower.jpg" = some [2] := rfl
  have hc2i : c8model.class_to_idx = c8map := rfl
  simp only [predict, himg]
  rw [modelForward_c8model, hhead, hc2i]
  simp only [mapClasses, show pyDictGet c8map 101 = none from rfl]

end ModelHelper
